import Mathlib

/-!
Shallow embedding of the Apache Mynewt kernel core time and task modules
(`kernel/os/src/os_time.c`, `kernel/os/src/os_task.c`), together with the
theorems that settle the specification claims about them.

Machine integers are embedded as `Nat` with explicit reduction modulo `2^w`
at the points where the C code can overflow.  The tick frequency
`OS_TICKS_PER_SEC` is a build-time configuration value, so the functions
that depend on it take it as an explicit parameter `tps`.
-/

/-- `UINT32_MAX` from `<stdint.h>`. -/
def UINT32_MAX : Nat := 4294967295

/-- Modulus of the 32-bit tick counter (`os_time_t` is 4 bytes wide,
checked by the `CTASSERT` in `os_time.c`). -/
def U32_MOD : Nat := 4294967296

/-- Modelled from the spec: the kernel error code `OS_OK` declared in
`os/os_error.h`, which is not under `src/`. -/
def OS_OK : Int := 0

/-- Modelled from the spec: the range-overflow error code `OS_EINVAL`
declared in `os/os_error.h`, which is not under `src/`. -/
def OS_EINVAL : Int := 2

/-- Modelled from the spec: the `INVALID_PARAM` error code `OS_INVALID_PARM`
declared in `os/os_error.h`, which is not under `src/`. -/
def OS_INVALID_PARM : Int := 3

/-- Modelled from the spec: the `NOT_STARTED` error code `OS_NOT_STARTED`
declared in `os/os_error.h`, which is not under `src/`. -/
def OS_NOT_STARTED : Int := 9

/-- Modelled from the spec: the `BUSY` error code `OS_EBUSY` declared in
`os/os_error.h`, which is not under `src/`. -/
def OS_EBUSY : Int := 11

/-- Modelled from the spec: the system error code `SYS_EINVAL` declared in
`defs/error.h`, which is not under `src/`. -/
def SYS_EINVAL : Int := -2

/-- Modelled from the spec: the "not found" system error code `SYS_ENOENT`
declared in `defs/error.h`, which is not under `src/`. -/
def SYS_ENOENT : Int := -4

/-- `struct os_timeval`: seconds and microseconds. -/
structure OsTimeval where
  tv_sec : Int
  tv_usec : Int
deriving DecidableEq, Repr

/-- `struct os_timezone`: minutes west of Greenwich and DST flag. -/
structure OsTimezone where
  tz_minuteswest : Int
  tz_dsttime : Int
deriving DecidableEq, Repr

/-- Modelled from the spec: the `os_timeradd` macro of `os/os_time.h`
(not under `src/`): component-wise sum with a single carry of one second
when the microsecond field reaches 1000000. -/
def os_timeradd (tvp uvp : OsTimeval) : OsTimeval :=
  let sec := tvp.tv_sec + uvp.tv_sec
  let usec := tvp.tv_usec + uvp.tv_usec
  if usec >= 1000000 then ⟨sec + 1, usec - 1000000⟩ else ⟨sec, usec⟩

/-- `os_deltatime` from `os_time.c`: convert a tick delta to an
`os_timeval` (`OS_USEC_PER_TICK = 1000000 / tps`, integer division) and
add it to `base`. -/
def os_deltatime (tps : Nat) (delta : Nat) (base : OsTimeval) : OsTimeval :=
  os_timeradd base ⟨(delta / tps : Nat), ((delta % tps) * (1000000 / tps) : Nat)⟩

/-- `os_time_ms_to_ticks` from `os_time.c`.  When `tps = 1000` the
preprocessor selects the identity shortcut; otherwise the product is
computed in 64 bits (exact here, since `ms < 2^32` and `tps ≤ 2^32-1`
keep it below `2^64`) and `OS_EINVAL` is returned when the result does
not fit in 32 bits. -/
def os_time_ms_to_ticks (tps : Nat) (ms : Nat) : Except Int Nat :=
  if tps = 1000 then .ok ms
  else
    let ticks := ms * tps / 1000
    if ticks > UINT32_MAX then .error OS_EINVAL else .ok ticks

/-- `os_time_ticks_to_ms` from `os_time.c`: the inverse conversion, with
the same `tps = 1000` shortcut and 32-bit range check. -/
def os_time_ticks_to_ms (tps : Nat) (ticks : Nat) : Except Int Nat :=
  if tps = 1000 then .ok ticks
  else
    let ms := ticks * 1000 / tps
    if ms > UINT32_MAX then .error OS_EINVAL else .ok ms

/-- The `basetod` record of `os_time.c`: time-of-day collateral from which
uptime and wall-clock are derived. -/
structure Basetod where
  ostime : Nat
  uptime : OsTimeval
  utctime : OsTimeval
  timezone : OsTimezone
deriving DecidableEq, Repr

/-- The mutable state of `os_time.c`: the global tick counter `g_os_time`
and the `basetod` record. -/
structure TimeState where
  g_os_time : Nat
  basetod : Basetod
deriving DecidableEq, Repr

/-- 32-bit unsigned subtraction `a - b` as used on `os_time_t` values. -/
def sub32 (a b : Nat) : Nat := (a + U32_MOD - b % U32_MOD) % U32_MOD

/-- The sign-bit-change test of `os_time_tick`:
`(prev_os_time ^ g_os_time) >> 31` is non-zero. -/
def signBitChanged (prev new : Nat) : Bool := (prev ^^^ new) >>> 31 != 0

/-- `os_time_tick` from `os_time.c` (the `OS_SCHEDULING` build): add
`ticks` to `g_os_time` modulo `2^32` and, exactly when the sign bit of the
counter changed across the addition, rebase `basetod`: add the accumulated
delta to the uptime and utctime bases and set `basetod.ostime` to the new
counter value. -/
def os_time_tick (tps : Nat) (st : TimeState) (ticks : Nat) : TimeState :=
  let prev := st.g_os_time
  let new := (prev + ticks) % U32_MOD
  if signBitChanged prev new then
    let delta := sub32 new st.basetod.ostime
    { g_os_time := new
      basetod := { st.basetod with
        ostime := new
        uptime := os_deltatime tps delta st.basetod.uptime
        utctime := os_deltatime tps delta st.basetod.utctime } }
  else
    { st with g_os_time := new }

/-- Calls the kernel core makes into its collaborators; `os_time.c` only
issues these calls, their bodies live in other modules. -/
inductive KernelCall where
  | calloutTick
  | schedOsTimerExp
  | sched
  | schedSleep (task : Nat) (ticks : Nat)
deriving DecidableEq, Repr

/-- `os_time_advance` from `os_time.c` (the `OS_SCHEDULING` build):
for a positive tick count, either bump the raw counter (scheduler not
started) or run the tick update followed by the callout tick, the sleeper
promotion and the scheduler; a zero count does nothing.  The returned list
records the outgoing kernel calls in order. -/
def os_time_advance (tps : Nat) (started : Bool) (st : TimeState) (ticks : Nat) :
    TimeState × List KernelCall :=
  if ticks > 0 then
    if !started then
      ({ st with g_os_time := (st.g_os_time + ticks) % U32_MOD }, [])
    else
      (os_time_tick tps st ticks, [.calloutTick, .schedOsTimerExp, .sched])
  else
    (st, [])

/-- `os_time_delay` from `os_time.c`: for a positive tick count, put the
current task to sleep and reschedule; for zero, do nothing.  The result
records the outgoing kernel calls in order. -/
def os_time_delay (currentTask : Nat) (osticks : Nat) : List KernelCall :=
  if osticks > 0 then [.schedSleep currentTask osticks, .sched] else []

/-- `os_time_get` from `os_time.c`. -/
def os_time_get (st : TimeState) : Nat := st.g_os_time

/-- `os_time_is_set` from `os_time.c`: `basetod.utctime.tv_sec > 0`. -/
def os_time_is_set (b : Basetod) : Bool := b.utctime.tv_sec > 0

/-- `os_get_uptime` from `os_time.c`: derive the current uptime from the
uptime base plus the tick delta accumulated since the base was set. -/
def os_get_uptime (tps : Nat) (st : TimeState) : OsTimeval :=
  os_deltatime tps (sub32 st.g_os_time st.basetod.ostime) st.basetod.uptime

/-- The `os_time_change_info` record built by `os_time_populate_info`
(pointers to timevals are embedded as the pointed-to values). -/
structure OsTimeChangeInfo where
  tci_prev_tv : OsTimeval
  tci_cur_tv : OsTimeval
  tci_prev_tz : OsTimezone
  tci_cur_tz : OsTimezone
  tci_newly_synced : Bool
deriving DecidableEq, Repr

/-- `os_time_populate_info` from `os_time.c`: fails with `SYS_EINVAL` when
both arguments are null; otherwise substitutes the current base for a null
argument and fills the record, with `tci_newly_synced = !os_time_is_set()`. -/
def os_time_populate_info (b : Basetod) (new_tv : Option OsTimeval)
    (new_tz : Option OsTimezone) : Except Int OsTimeChangeInfo :=
  if new_tv = none ∧ new_tz = none then
    .error SYS_EINVAL
  else
    .ok { tci_prev_tv := b.utctime
          tci_cur_tv := new_tv.getD b.utctime
          tci_prev_tz := b.timezone
          tci_cur_tz := new_tz.getD b.timezone
          tci_newly_synced := !os_time_is_set b }

/-- `os_settimeofday` from `os_time.c`: build the change info (its failure
only suppresses the notification), advance the uptime base and `ostime`
reference and overwrite the utctime base when `utctime` is non-null,
overwrite the timezone when `tz` is non-null, and return 0.  The third
component is the notification delivered to the listeners, if any. -/
def os_settimeofday (tps : Nat) (st : TimeState) (utctime : Option OsTimeval)
    (tz : Option OsTimezone) : Int × TimeState × Option OsTimeChangeInfo :=
  let infoRes := os_time_populate_info st.basetod utctime tz
  let st1 := match utctime with
    | some utv =>
      let delta := sub32 (os_time_get st) st.basetod.ostime
      { st with basetod := { st.basetod with
          ostime := (st.basetod.ostime + delta) % U32_MOD
          uptime := os_deltatime tps delta st.basetod.uptime
          utctime := utv } }
    | none => st
  let st2 := match tz with
    | some z => { st1 with basetod := { st1.basetod with timezone := z } }
    | none => st1
  match infoRes with
  | .ok info => (0, st2, some info)
  | .error _ => (0, st2, none)

/-!
Time-change listeners.  The listener list is a singly linked `STAILQ` of
externally owned records; record identity (the C pointer) is embedded as a
`Nat`, and the list as a `List Nat` in registration order.
-/

/-- The loop of `os_time_change_listener_find`: walk the list keeping the
predecessor of the cursor; on a match return the predecessor (`none` when
the match is the head), otherwise fail with `SYS_ENOENT`. -/
def listener_find_loop (listener : Nat) (prev : Option Nat) :
    List Nat → Except Int (Option Nat)
  | [] => .error SYS_ENOENT
  | cur :: rest =>
    if cur = listener then .ok prev else listener_find_loop listener (some cur) rest

/-- `os_time_change_listener_find` from `os_time.c`. -/
def os_time_change_listener_find (ls : List Nat) (listener : Nat) :
    Except Int (Option Nat) :=
  listener_find_loop listener none ls

/-- `STAILQ_REMOVE_HEAD`: drop the first element of the list. -/
def stailq_remove_head : List Nat → List Nat
  | [] => []
  | _ :: xs => xs

/-- The splice `STAILQ_NEXT(prev) = STAILQ_NEXT(listener)` performed by
`os_time_change_remove`: unlink the element that follows the (unique)
occurrence of `prev`. -/
def stailq_remove_after (prev : Nat) : List Nat → List Nat
  | [] => []
  | x :: xs =>
    if x = prev then x :: stailq_remove_head xs else x :: stailq_remove_after prev xs

/-- `os_time_change_remove` from `os_time.c`: find the listener (and its
predecessor); on failure return the error with the list untouched, else
unlink the listener (head removal or splice) and return 0. -/
def os_time_change_remove (ls : List Nat) (listener : Nat) : Int × List Nat :=
  match os_time_change_listener_find ls listener with
  | .error rc => (rc, ls)
  | .ok none => (0, stailq_remove_head ls)
  | .ok (some prev) => (0, stailq_remove_after prev ls)

/-!
Task removal (`os_task.c`).  Task records are embedded by value, task
identity (the C pointer) by the task id.
-/

/-- Modelled from the spec: `OS_TASK_READY` from `os/os_task.h` (not under
`src/`). -/
def OS_TASK_READY : Nat := 1

/-- Modelled from the spec: `OS_TASK_SLEEP` from `os/os_task.h` (not under
`src/`). -/
def OS_TASK_SLEEP : Nat := 2

/-- Modelled from the spec: the REMOVED state a task enters after a
successful removal. -/
def OS_TASK_REMOVED : Nat := 3

/-- Modelled from the spec: the semaphore wait flag `OS_TASK_FLAG_SEM_WAIT`
from `os/os_task.h` (not under `src/`). -/
def OS_TASK_FLAG_SEM_WAIT : Nat := 2

/-- Modelled from the spec: the mutex wait flag `OS_TASK_FLAG_MUTEX_WAIT`
from `os/os_task.h` (not under `src/`). -/
def OS_TASK_FLAG_MUTEX_WAIT : Nat := 4

/-- Modelled from the spec: the event-queue wait flag `OS_TASK_FLAG_EVQ_WAIT`
from `os/os_task.h` (not under `src/`). -/
def OS_TASK_FLAG_EVQ_WAIT : Nat := 8

/-- The fields of `struct os_task` that task removal inspects. -/
structure OsTask where
  t_taskid : Nat
  t_state : Nat
  t_flags : Nat
  t_lockcnt : Nat
deriving DecidableEq, Repr

/-- The kernel state task removal touches: the running task, the ready and
sleep queues (ids in queue order) and the task records. -/
structure TaskKernel where
  currentTask : Nat
  readyQ : List Nat
  sleepQ : List Nat
  tasks : List OsTask
deriving DecidableEq, Repr

/-- Modelled from the spec: `os_sched_remove` (in `os_sched.c`, not under
`src/`): remove the task from whichever queue holds it and mark it
REMOVED; returns `OS_OK`. -/
def os_sched_remove (k : TaskKernel) (t : OsTask) : Int × TaskKernel :=
  let k1 :=
    if t.t_state = OS_TASK_READY then { k with readyQ := k.readyQ.erase t.t_taskid }
    else if t.t_state = OS_TASK_SLEEP then { k with sleepQ := k.sleepQ.erase t.t_taskid }
    else k
  (OS_OK, { k1 with tasks := k1.tasks.map fun u =>
      if u.t_taskid = t.t_taskid then { u with t_state := OS_TASK_REMOVED } else u })

/-- `os_task_remove` from `os_task.c`: reject the running task with
`OS_INVALID_PARM`; a task neither READY nor SLEEP with `OS_NOT_STARTED`;
a task with a semaphore/mutex/event-queue wait flag, or a non-zero lock
hold count, with `OS_EBUSY`; otherwise delegate to `os_sched_remove`.
All error paths return the kernel state unchanged. -/
def os_task_remove (k : TaskKernel) (t : OsTask) : Int × TaskKernel :=
  if t.t_taskid = k.currentTask then
    (OS_INVALID_PARM, k)
  else if t.t_state ≠ OS_TASK_READY ∧ t.t_state ≠ OS_TASK_SLEEP then
    (OS_NOT_STARTED, k)
  else if t.t_flags &&& (OS_TASK_FLAG_SEM_WAIT ||| OS_TASK_FLAG_MUTEX_WAIT |||
      OS_TASK_FLAG_EVQ_WAIT) ≠ 0 then
    (OS_EBUSY, k)
  else if t.t_lockcnt ≠ 0 then
    (OS_EBUSY, k)
  else
    os_sched_remove k t

/-!
Task identifiers (`os_task.c`).  `g_task_id` is a `uint8_t`, so the
increment in `os_task_next_id` wraps modulo `2^8 = 256`.
-/

/-- `os_task_next_id` from `os_task.c`: return the current counter value
and advance the 8-bit counter (second component is the new counter). -/
def os_task_next_id (g_task_id : Nat) : Nat × Nat :=
  (g_task_id, (g_task_id + 1) % 256)

/-- The id-assignment state: the 8-bit counter `g_task_id` and the ids
handed out so far, in creation order. -/
structure TaskIdState where
  g_task_id : Nat
  assigned : List Nat
deriving DecidableEq, Repr

/-- The id-assignment step of `os_task_init` from `os_task.c`: the new
task's `t_taskid` is `os_task_next_id()`. -/
def os_task_init_id (st : TaskIdState) : TaskIdState :=
  let r := os_task_next_id st.g_task_id
  { g_task_id := r.2, assigned := st.assigned ++ [r.1] }

/-- `os_task_count` from `os_task.c`: the current value of `g_task_id`. -/
def os_task_count (st : TaskIdState) : Nat := st.g_task_id

/-- The id-assignment state after `n` task creations starting from the
zero-initialised `g_task_id`. -/
def taskStateAfter : Nat → TaskIdState
  | 0 => ⟨0, []⟩
  | n + 1 => os_task_init_id (taskStateAfter n)

/-!
Helper lemmas shared by the claim theorems.
-/

/-- The microsecond field stays in `[0, 1000000)` across `os_deltatime`:
the converted tick delta contributes strictly less than one second of
microseconds and `os_timeradd` carries at most once. -/
theorem os_deltatime_usec_bounds (tps d : Nat) (b : OsTimeval)
    (h0 : 0 ≤ b.tv_usec) (h1 : b.tv_usec < 1000000) :
    0 ≤ (os_deltatime tps d b).tv_usec ∧ (os_deltatime tps d b).tv_usec < 1000000 := by
  have hq : (d % tps) * (1000000 / tps) < 1000000 := by
    rcases Nat.eq_zero_or_pos (1000000 / tps) with hz | hpos
    · rw [hz]; simp
    · have htps : 0 < tps := by
        rcases Nat.eq_zero_or_pos tps with h | h
        · subst h; simp at hpos
        · exact h
      calc (d % tps) * (1000000 / tps)
          < tps * (1000000 / tps) := (Nat.mul_lt_mul_right hpos).mpr (Nat.mod_lt _ htps)
        _ = (1000000 / tps) * tps := Nat.mul_comm _ _
        _ ≤ 1000000 := Nat.div_mul_le_self _ _
  have hq' : (((d % tps) * (1000000 / tps) : Nat) : Int) < 1000000 := by
    exact_mod_cast hq
  have hq0 : (0 : Int) ≤ (((d % tps) * (1000000 / tps) : Nat) : Int) :=
    Int.natCast_nonneg _
  unfold os_deltatime os_timeradd
  dsimp only
  split <;> refine ⟨?_, ?_⟩ <;> dsimp only <;> omega

/-- Adding a zero tick delta with `os_deltatime` is the identity on
timevals whose microsecond field is in `[0, 1000000)`. -/
theorem os_deltatime_zero (tps : Nat) (b : OsTimeval) (h0 : 0 ≤ b.tv_usec)
    (h1 : b.tv_usec < 1000000) : os_deltatime tps 0 b = b := by
  unfold os_deltatime os_timeradd
  simp only [Nat.zero_div, Nat.zero_mod, Nat.zero_mul, Nat.cast_zero, Int.add_zero]
  rw [if_neg (by omega)]

/-- The 32-bit difference of a 32-bit value with itself is zero. -/
theorem sub32_self (a : Nat) : sub32 a a = 0 := by
  simp only [sub32, U32_MOD]
  omega



/-!
Claim theorems.
-/

/-- C5: calling `os_time_advance` with `ticks = 0` leaves the tick counter
and the time-of-day base (hence every queue) unchanged and issues no call
to the callout tick, the sleeper promotion, or the scheduler. -/
theorem os_time_advance_zero_noop (tps : Nat) (started : Bool) (st : TimeState) :
    os_time_advance tps started st 0 = (st, []) := rfl

/-- C6: `os_time_delay 0` is a no-op (no kernel calls at all, hence no
sleep and no context switch), while for every positive tick count it puts
the current task to sleep and then reschedules, in that order. -/
theorem os_time_delay_spec (c t : Nat) (h : 0 < t) :
    os_time_delay c 0 = [] ∧
    os_time_delay c t = [.schedSleep c t, .sched] := by
  refine ⟨rfl, ?_⟩
  simp [os_time_delay, h]

/-- Witness for C6 at `currentTask = 4`, `osticks = 7`. -/
theorem os_time_delay_spec_witness :
    os_time_delay 4 0 = [] ∧
    os_time_delay 4 7 = [.schedSleep 4 7, .sched] :=
  os_time_delay_spec 4 7 (by decide)

/-- C2 counterexample: with `OS_TICKS_PER_SEC = 1000` the conversion takes
the identity shortcut, so `os_time_ms_to_ticks 1000 4294968` succeeds with
result 4294968 instead of returning the range-overflow error the claim
demands. -/
theorem ms_to_ticks_tps1000_no_overflow :
    os_time_ms_to_ticks 1000 4294968 = .ok 4294968 ∧
    os_time_ms_to_ticks 1000 4294968 ≠ .error OS_EINVAL := by
  refine ⟨rfl, ?_⟩
  intro h
  simp [os_time_ms_to_ticks] at h

/-- C2 (amended): with `OS_TICKS_PER_SEC = 1000` the conversion is the
identity and always succeeds; the overflow threshold the claim names is
the one of `OS_TICKS_PER_SEC = 1000000`, where input 4294968 yields the
range-overflow error and 4294967 succeeds; in general, for any tick rate
other than 1000, the conversion fails with the range-overflow error
exactly when the 64-bit result `ms * tps / 1000` exceeds `2^32 - 1`, and
otherwise returns that result. -/
theorem ms_to_ticks_overflow_spec (tps ms : Nat) (h1000 : tps ≠ 1000) :
    os_time_ms_to_ticks 1000 ms = .ok ms ∧
    os_time_ms_to_ticks 1000000 4294968 = .error OS_EINVAL ∧
    os_time_ms_to_ticks 1000000 4294967 = .ok 4294967000 ∧
    (os_time_ms_to_ticks tps ms = .error OS_EINVAL ↔ ms * tps / 1000 > UINT32_MAX) ∧
    (¬ ms * tps / 1000 > UINT32_MAX →
      os_time_ms_to_ticks tps ms = .ok (ms * tps / 1000)) := by
  refine ⟨rfl, rfl, rfl, ?_, ?_⟩
  · unfold os_time_ms_to_ticks
    rw [if_neg h1000]
    by_cases hov : ms * tps / 1000 > UINT32_MAX
    · simp [hov]
    · simp [hov]
  · intro hov
    unfold os_time_ms_to_ticks
    rw [if_neg h1000]
    simp [hov]

/-- Witness for C2 (amended) at `tps = 1000000`, `ms = 4294968`. -/
theorem ms_to_ticks_overflow_spec_witness :
    (1000000 : Nat) ≠ 1000 ∧
    (os_time_ms_to_ticks 1000000 4294968 = .error OS_EINVAL ↔
      4294968 * 1000000 / 1000 > UINT32_MAX) :=
  ⟨by decide, (ms_to_ticks_overflow_spec 1000000 4294968 (by decide)).2.2.2.1⟩

/-- C3 counterexample: with `OS_TICKS_PER_SEC = 128` (a tick rate the code
supports), the tick count 1 converts to 7 ms (which fits in 32 bits), but
converting 7 ms back gives 0 ticks, not 1: the round-trip identity fails. -/
theorem roundtrip_fails_tps128 :
    os_time_ticks_to_ms 128 1 = .ok 7 ∧
    os_time_ms_to_ticks 128 7 = .ok 0 ∧
    (os_time_ticks_to_ms 128 1).bind (os_time_ms_to_ticks 128) = .ok 0 := by
  exact ⟨rfl, rfl, rfl⟩

/-- C3 (amended): the round-trip identity
`ms_to_ticks (ticks_to_ms t) = t` holds for every 32-bit tick count whose
intermediate millisecond value fits in 32 bits, provided the tick rate
divides 1000 (so that the millisecond conversion is exact); for other
tick rates the floor divisions lose information and the identity fails. -/
theorem ms_ticks_roundtrip (tps t : Nat) (hdvd : tps ∣ 1000) (ht : t ≤ UINT32_MAX)
    (hfit : t * (1000 / tps) ≤ UINT32_MAX) :
    (os_time_ticks_to_ms tps t).bind (os_time_ms_to_ticks tps) = .ok t := by
  have htps : 0 < tps := Nat.pos_of_dvd_of_pos hdvd (by norm_num)
  obtain ⟨k, hk⟩ := hdvd
  by_cases h1000 : tps = 1000
  · subst h1000
    simp [os_time_ticks_to_ms, os_time_ms_to_ticks, Except.bind]
  · have hms : t * 1000 / tps = t * k := by
      rw [hk, show t * (tps * k) = tps * (t * k) by ring]
      exact Nat.mul_div_cancel_left _ htps
    have hkdiv : 1000 / tps = k := by
      rw [hk]
      exact Nat.mul_div_cancel_left _ htps
    have hposk : 0 < tps * k := by rw [← hk]; norm_num
    have hback : t * k * tps / 1000 = t := by
      rw [hk, show t * k * tps = t * (tps * k) by ring]
      exact Nat.mul_div_cancel _ hposk
    have hfit' : ¬ t * 1000 / tps > UINT32_MAX := by
      rw [hms]
      rw [hkdiv] at hfit
      omega
    have ht' : ¬ t * k * tps / 1000 > UINT32_MAX := by
      rw [hback]
      omega
    unfold os_time_ticks_to_ms os_time_ms_to_ticks
    rw [if_neg h1000]
    simp only [gt_iff_lt, not_lt] at hfit' ht'
    rw [if_neg (by omega)]
    show os_time_ms_to_ticks tps (t * 1000 / tps) = .ok t
    unfold os_time_ms_to_ticks
    rw [if_neg h1000, hms]
    rw [if_neg (by omega)]
    rw [hback]

/-- Witness for C3 (amended) at `tps = 100`, `t = 5`. -/
theorem ms_ticks_roundtrip_witness :
    (os_time_ticks_to_ms 100 5).bind (os_time_ms_to_ticks 100) = .ok 5 :=
  ms_ticks_roundtrip 100 5 (by decide) (by decide) (by decide)

/-- An absent listener makes the find loop fail with `SYS_ENOENT`,
whatever predecessor has been accumulated. -/
theorem listener_find_loop_not_mem (listener : Nat) (prev : Option Nat)
    (ls : List Nat) (h : listener ∉ ls) :
    listener_find_loop listener prev ls = .error SYS_ENOENT := by
  induction ls generalizing prev with
  | nil => rfl
  | cons x xs ih =>
    rw [listener_find_loop]
    rw [if_neg (by intro he; exact h (by rw [← he]; exact List.mem_cons_self x xs))]
    exact ih (some x) (fun hm => h (List.mem_cons_of_mem x hm))

/-- The find loop started after a fresh head `x` locates a present
listener, returns one of the traversed elements as predecessor, and the
subsequent splice removes exactly the listener. -/
theorem listener_find_loop_mem (listener : Nat) (ys : List Nat) :
    ys.Nodup → ∀ x, x ∉ ys → x ≠ listener → listener ∈ ys →
    ∃ p, listener_find_loop listener (some x) ys = .ok (some p) ∧
      (p = x ∨ p ∈ ys) ∧
      stailq_remove_after p (x :: ys) = x :: ys.erase listener := by
  induction ys with
  | nil => intro _ x _ _ hmem; cases hmem
  | cons y ts ih =>
    intro hnd x hx hxl hmem
    by_cases hyl : y = listener
    · refine ⟨x, ?_, Or.inl rfl, ?_⟩
      · rw [listener_find_loop, if_pos hyl]
      · rw [stailq_remove_after, if_pos rfl, stailq_remove_head]
        rw [show (y :: ts).erase listener = ts from by
          rw [← hyl]; exact List.erase_cons_head y ts]
    · have hmem' : listener ∈ ts := by
        rcases List.mem_cons.mp hmem with h | h
        · exact absurd h.symm hyl
        · exact h
      have hnd' := List.nodup_cons.mp hnd
      obtain ⟨p, hfind, hp, hrem⟩ := ih hnd'.2 y hnd'.1 hyl hmem'
      have hxp : ¬ x = p := by
        intro he
        rcases hp with h' | h'
        · exact hx (by rw [he, h']; exact List.mem_cons_self y ts)
        · exact hx (by rw [he]; exact List.mem_cons_of_mem y h')
      refine ⟨p, ?_, Or.inr ?_, ?_⟩
      · rw [listener_find_loop, if_neg hyl]
        exact hfind
      · rcases hp with h' | h'
        · rw [h']; exact List.mem_cons_self y ts
        · exact List.mem_cons_of_mem y h'
      · rw [stailq_remove_after, if_neg hxp, hrem]
        rw [List.erase_cons_tail]
        exact (by simpa using hyl)

/-- C9: removing a listener that is not registered returns `SYS_ENOENT`
and leaves the listener list untouched; removing a registered listener
(listener records are distinct, so the list of identities has no
duplicates) returns 0 and removes exactly that listener, preserving the
order of the remaining ones. -/
theorem os_time_change_remove_spec (ls : List Nat) (l : Nat) (hnd : ls.Nodup) :
    (l ∉ ls → os_time_change_remove ls l = (SYS_ENOENT, ls)) ∧
    (l ∈ ls → os_time_change_remove ls l = (0, ls.erase l)) := by
  constructor
  · intro hout
    unfold os_time_change_remove os_time_change_listener_find
    rw [listener_find_loop_not_mem l none ls hout]
  · intro hin
    cases ls with
    | nil => cases hin
    | cons x xs =>
      by_cases hxl : x = l
      · unfold os_time_change_remove os_time_change_listener_find
        rw [listener_find_loop, if_pos hxl]
        rw [show (x :: xs).erase l = xs from by
          rw [← hxl]; exact List.erase_cons_head x xs]
        rfl
      · have hin' : l ∈ xs := by
          rcases List.mem_cons.mp hin with h | h
          · exact absurd h.symm hxl
          · exact h
        have hnd' := List.nodup_cons.mp hnd
        obtain ⟨p, hfind, _, hrem⟩ :=
          listener_find_loop_mem l xs hnd'.2 x hnd'.1 hxl hin'
        unfold os_time_change_remove os_time_change_listener_find
        rw [listener_find_loop, if_neg hxl, hfind]
        show (0, stailq_remove_after p (x :: xs)) = (0, (x :: xs).erase l)
        rw [hrem]
        rw [List.erase_cons_tail]
        exact (by simpa using hxl)

/-- Witness for C9: removing the middle of three registered listeners. -/
theorem os_time_change_remove_spec_witness :
    os_time_change_remove [1, 2, 3] 2 = (0, [1, 2, 3].erase 2) ∧
    [1, 2, 3].erase 2 = [1, 3] :=
  ⟨(os_time_change_remove_spec [1, 2, 3] 2 (by decide)).2 (by decide), by decide⟩

/-- Closed form of the id-assignment state after `n` creations: the 8-bit
counter holds `n % 256` and the ids were handed out as `0 % 256`,
`1 % 256`, ..., `(n-1) % 256` in order. -/
theorem taskStateAfter_eq (n : Nat) :
    taskStateAfter n = ⟨n % 256, (List.range n).map (fun i => i % 256)⟩ := by
  induction n with
  | zero => rfl
  | succ n ih =>
    rw [taskStateAfter, ih]
    have hmod : (n % 256 + 1) % 256 = (n + 1) % 256 := by omega
    simp [os_task_init_id, os_task_next_id, List.range_succ, hmod]

/-- C10: task identifiers come from an 8-bit counter: after `n` calls of
`os_task_init` the `k`-th created task received the id `k % 256`,
`os_task_count` reports `n % 256`, and a task created 256 creations after
another receives the same identifier again, so identifiers are not unique
over the lifetime of the system. -/
theorem task_id_counter_spec (n k : Nat) (h : k + 256 < n) :
    os_task_count (taskStateAfter n) = n % 256 ∧
    (taskStateAfter n).assigned = (List.range n).map (fun i => i % 256) ∧
    (taskStateAfter n).assigned[k + 256]? = some (k % 256) ∧
    (taskStateAfter n).assigned[k + 256]? = (taskStateAfter n).assigned[k]? := by
  have he := taskStateAfter_eq n
  have hk : k < n := by omega
  refine ⟨?_, ?_, ?_, ?_⟩
  · rw [he]; rfl
  · rw [he]
  · rw [he]
    simp only [List.getElem?_map, List.getElem?_range h]
    simp only [Option.map_some']
    have : (k + 256) % 256 = k % 256 := by omega
    rw [this]
  · rw [he]
    simp only [List.getElem?_map, List.getElem?_range h, List.getElem?_range hk]
    simp only [Option.map_some']
    have : (k + 256) % 256 = k % 256 := by omega
    rw [this]

/-- Witness for C10 at `n = 260`, `k = 3`. -/
theorem task_id_counter_spec_witness :
    os_task_count (taskStateAfter 260) = 260 % 256 ∧
    (taskStateAfter 260).assigned = (List.range 260).map (fun i => i % 256) ∧
    (taskStateAfter 260).assigned[3 + 256]? = some (3 % 256) ∧
    (taskStateAfter 260).assigned[3 + 256]? = (taskStateAfter 260).assigned[3]? :=
  task_id_counter_spec 260 3 (by decide)

/-- C1 counterexample: `os_settimeofday` called with both arguments null
returns 0, not the `SYS_EINVAL` error the claim demands — the failure of
`os_time_populate_info` only suppresses the notification, and the `rc`
variable is not returned. -/
theorem os_settimeofday_null_null_returns_zero :
    os_settimeofday 1000 ⟨0, ⟨0, ⟨0, 0⟩, ⟨0, 0⟩, ⟨0, 0⟩⟩⟩ none none =
      (0, ⟨0, ⟨0, ⟨0, 0⟩, ⟨0, 0⟩, ⟨0, 0⟩⟩⟩, none) ∧
    (0 : Int) ≠ SYS_EINVAL := by
  refine ⟨rfl, ?_⟩
  decide

/-- C1 (amended): `os_settimeofday` always returns 0, even when both the
timeval and the timezone argument are null; in that case it performs no
update and fires no notification, while when at least one argument is
non-null it updates the base (new utctime and timezone exactly as
supplied, current values kept for a null argument) and fires the
notification built from the state before the update. -/
theorem os_settimeofday_spec (tps : Nat) (st : TimeState) (tv : Option OsTimeval)
    (tz : Option OsTimezone) (h : ¬(tv = none ∧ tz = none)) :
    (os_settimeofday tps st tv tz).1 = 0 ∧
    os_settimeofday tps st none none = (0, st, none) ∧
    (os_settimeofday tps st tv tz).2.2 =
      some ⟨st.basetod.utctime, tv.getD st.basetod.utctime,
            st.basetod.timezone, tz.getD st.basetod.timezone,
            !os_time_is_set st.basetod⟩ ∧
    (os_settimeofday tps st tv tz).2.1.basetod.utctime = tv.getD st.basetod.utctime ∧
    (os_settimeofday tps st tv tz).2.1.basetod.timezone = tz.getD st.basetod.timezone := by
  refine ⟨?_, ?_, ?_, ?_, ?_⟩ <;>
    cases tv <;> cases tz <;>
      simp_all [os_settimeofday, os_time_populate_info, os_time_get]

/-- Witness for C1 (amended): setting the wall clock with a null timezone. -/
theorem os_settimeofday_spec_witness :
    (os_settimeofday 1000 ⟨5, ⟨0, ⟨0, 0⟩, ⟨0, 0⟩, ⟨0, 0⟩⟩⟩
        (some ⟨1700000000, 0⟩) none).2.2 =
      some ⟨⟨0, 0⟩, ⟨1700000000, 0⟩, ⟨0, 0⟩, ⟨0, 0⟩, true⟩ :=
  ((os_settimeofday_spec 1000 ⟨5, ⟨0, ⟨0, 0⟩, ⟨0, 0⟩, ⟨0, 0⟩⟩⟩
      (some ⟨1700000000, 0⟩) none (by simp)).2.2.1).trans (by rfl)

/-- C7 counterexample: with a stored utctime of `-1` seconds the
notification record carries `tci_newly_synced = true` although the stored
seconds are not equal to 0, so the claimed "true iff seconds were 0"
biconditional fails. -/
theorem newly_synced_negative_sec :
    os_time_populate_info ⟨0, ⟨0, 0⟩, ⟨-1, 0⟩, ⟨0, 0⟩⟩ (some ⟨10, 0⟩) none =
      .ok ⟨⟨-1, 0⟩, ⟨10, 0⟩, ⟨0, 0⟩, ⟨0, 0⟩, true⟩ ∧
    (⟨0, ⟨0, 0⟩, ⟨-1, 0⟩, ⟨0, 0⟩⟩ : Basetod).utctime.tv_sec ≠ 0 := by
  refine ⟨rfl, ?_⟩
  decide

/-- C7 (amended): in every notification record `os_time_populate_info`
builds, `tci_newly_synced` is true iff the stored utctime seconds were not
greater than 0 before the update (the code computes `!os_time_is_set()`,
which also covers negative stored seconds); `os_time_is_set` returns true
exactly when the stored utctime seconds are greater than 0. -/
theorem newly_synced_spec (b : Basetod) (tv : Option OsTimeval)
    (tz : Option OsTimezone) (info : OsTimeChangeInfo)
    (h : os_time_populate_info b tv tz = .ok info) :
    (info.tci_newly_synced = true ↔ ¬ b.utctime.tv_sec > 0) ∧
    (os_time_is_set b = true ↔ b.utctime.tv_sec > 0) := by
  unfold os_time_populate_info at h
  split at h
  · exact absurd h (by simp)
  · simp only [Except.ok.injEq] at h
    subst h
    constructor
    · simp [os_time_is_set]
    · simp [os_time_is_set]

/-- Witness for C7 at a state that has never held a wall clock. -/
theorem newly_synced_spec_witness :
    ((⟨⟨0, 0⟩, ⟨10, 0⟩, ⟨0, 0⟩, ⟨0, 0⟩, true⟩ : OsTimeChangeInfo).tci_newly_synced = true ↔
      ¬ (⟨0, ⟨0, 0⟩, ⟨0, 0⟩, ⟨0, 0⟩⟩ : Basetod).utctime.tv_sec > 0) ∧
    (os_time_is_set ⟨0, ⟨0, 0⟩, ⟨0, 0⟩, ⟨0, 0⟩⟩ = true ↔
      (⟨0, ⟨0, 0⟩, ⟨0, 0⟩, ⟨0, 0⟩⟩ : Basetod).utctime.tv_sec > 0) :=
  newly_synced_spec ⟨0, ⟨0, 0⟩, ⟨0, 0⟩, ⟨0, 0⟩⟩ (some ⟨10, 0⟩) none
    ⟨⟨0, 0⟩, ⟨10, 0⟩, ⟨0, 0⟩, ⟨0, 0⟩, true⟩ (by rfl)

/-- C8: `os_task_remove` rejects the running task with `OS_INVALID_PARM`;
otherwise a task neither READY nor SLEEP with `OS_NOT_STARTED`; otherwise
a set semaphore/mutex/event-queue wait flag, and then a non-zero lock hold
count, with `OS_EBUSY`; on every error return the kernel state (task
record and all queues) is unchanged, and only when all checks pass does it
remove the task from its queue (via the scheduler removal), returning
`OS_OK`. -/
theorem os_task_remove_spec (k : TaskKernel) (t : OsTask) :
    (t.t_taskid = k.currentTask → os_task_remove k t = (OS_INVALID_PARM, k)) ∧
    (t.t_taskid ≠ k.currentTask → t.t_state ≠ OS_TASK_READY →
      t.t_state ≠ OS_TASK_SLEEP → os_task_remove k t = (OS_NOT_STARTED, k)) ∧
    (t.t_taskid ≠ k.currentTask →
      (t.t_state = OS_TASK_READY ∨ t.t_state = OS_TASK_SLEEP) →
      t.t_flags &&& (OS_TASK_FLAG_SEM_WAIT ||| OS_TASK_FLAG_MUTEX_WAIT |||
        OS_TASK_FLAG_EVQ_WAIT) ≠ 0 →
      os_task_remove k t = (OS_EBUSY, k)) ∧
    (t.t_taskid ≠ k.currentTask →
      (t.t_state = OS_TASK_READY ∨ t.t_state = OS_TASK_SLEEP) →
      t.t_flags &&& (OS_TASK_FLAG_SEM_WAIT ||| OS_TASK_FLAG_MUTEX_WAIT |||
        OS_TASK_FLAG_EVQ_WAIT) = 0 →
      t.t_lockcnt ≠ 0 → os_task_remove k t = (OS_EBUSY, k)) ∧
    (t.t_taskid ≠ k.currentTask →
      (t.t_state = OS_TASK_READY ∨ t.t_state = OS_TASK_SLEEP) →
      t.t_flags &&& (OS_TASK_FLAG_SEM_WAIT ||| OS_TASK_FLAG_MUTEX_WAIT |||
        OS_TASK_FLAG_EVQ_WAIT) = 0 →
      t.t_lockcnt = 0 →
      os_task_remove k t = os_sched_remove k t ∧
        (os_task_remove k t).1 = OS_OK) := by
  refine ⟨?_, ?_, ?_, ?_, ?_⟩
  · intro h1
    unfold os_task_remove
    rw [if_pos h1]
  · intro h1 h2 h3
    unfold os_task_remove
    rw [if_neg h1, if_pos ⟨h2, h3⟩]
  · intro h1 h2 h3
    unfold os_task_remove
    rw [if_neg h1, if_neg (by rcases h2 with h | h <;> simp [h]), if_pos h3]
  · intro h1 h2 h3 h4
    unfold os_task_remove
    rw [if_neg h1, if_neg (by rcases h2 with h | h <;> simp [h]),
      if_neg (by simp [h3]), if_pos h4]
  · intro h1 h2 h3 h4
    unfold os_task_remove
    rw [if_neg h1, if_neg (by rcases h2 with h | h <;> simp [h]),
      if_neg (by simp [h3]), if_neg (by simp [h4])]
    exact ⟨rfl, rfl⟩

/-- Witness for C8: successful removal of a READY task that is not
running, holds no lock and waits on nothing. -/
theorem os_task_remove_spec_witness :
    os_task_remove ⟨7, [1, 2], [3], [⟨1, 1, 0, 0⟩]⟩ ⟨1, 1, 0, 0⟩ =
      os_sched_remove ⟨7, [1, 2], [3], [⟨1, 1, 0, 0⟩]⟩ ⟨1, 1, 0, 0⟩ ∧
    (os_task_remove ⟨7, [1, 2], [3], [⟨1, 1, 0, 0⟩]⟩ ⟨1, 1, 0, 0⟩).1 = OS_OK :=
  (os_task_remove_spec ⟨7, [1, 2], [3], [⟨1, 1, 0, 0⟩]⟩ ⟨1, 1, 0, 0⟩).2.2.2.2
    (by decide) (Or.inl (by decide)) (by decide) (by decide)

/-- C4: during a tick advance the time-of-day base is rebased exactly when
the sign bit of the 32-bit counter changes across the addition: when the
sign bit does not change the base record is untouched (only the counter
moves), and when it changes the rebase adds the accumulated delta to the
uptime and utctime bases and sets the `ostime` reference to the new
counter value, so that the uptime derived by `os_get_uptime` is the same
immediately before and immediately after the rebase (uptime is monotonic
across the wrap event). -/
theorem os_time_tick_rebase_spec (tps n : Nat) (st : TimeState)
    (hu0 : 0 ≤ st.basetod.uptime.tv_usec)
    (hu1 : st.basetod.uptime.tv_usec < 1000000) :
    (signBitChanged st.g_os_time ((st.g_os_time + n) % U32_MOD) = false →
      os_time_tick tps st n = { st with g_os_time := (st.g_os_time + n) % U32_MOD }) ∧
    (signBitChanged st.g_os_time ((st.g_os_time + n) % U32_MOD) = true →
      (os_time_tick tps st n).basetod.ostime = (st.g_os_time + n) % U32_MOD ∧
      (os_time_tick tps st n).basetod.uptime =
        os_deltatime tps (sub32 ((st.g_os_time + n) % U32_MOD) st.basetod.ostime)
          st.basetod.uptime ∧
      (os_time_tick tps st n).basetod.utctime =
        os_deltatime tps (sub32 ((st.g_os_time + n) % U32_MOD) st.basetod.ostime)
          st.basetod.utctime ∧
      os_get_uptime tps (os_time_tick tps st n) =
        os_get_uptime tps { st with g_os_time := (st.g_os_time + n) % U32_MOD }) := by
  constructor
  · intro hs
    simp [os_time_tick, hs]
  · intro hs
    have hst : os_time_tick tps st n =
        { g_os_time := (st.g_os_time + n) % U32_MOD
          basetod := { st.basetod with
            ostime := (st.g_os_time + n) % U32_MOD
            uptime := os_deltatime tps
              (sub32 ((st.g_os_time + n) % U32_MOD) st.basetod.ostime)
              st.basetod.uptime
            utctime := os_deltatime tps
              (sub32 ((st.g_os_time + n) % U32_MOD) st.basetod.ostime)
              st.basetod.utctime } } := by
      simp [os_time_tick, hs]
    refine ⟨by rw [hst], by rw [hst], by rw [hst], ?_⟩
    rw [hst]
    unfold os_get_uptime
    dsimp only
    rw [sub32_self]
    have hb := os_deltatime_usec_bounds tps
      (sub32 ((st.g_os_time + n) % U32_MOD) st.basetod.ostime)
      st.basetod.uptime hu0 hu1
    rw [os_deltatime_zero tps _ hb.1 hb.2]

/-- Witness for C4: the wrap scenario of the spec, advancing by 3 from
`0x7FFFFFFE` with a zeroed base; the sign bit changes and the derived
uptime is unchanged by the rebase. -/
theorem os_time_tick_rebase_spec_witness :
    os_get_uptime 1000
        (os_time_tick 1000 ⟨2147483646, ⟨0, ⟨0, 0⟩, ⟨0, 0⟩, ⟨0, 0⟩⟩⟩ 3) =
      os_get_uptime 1000 ⟨(2147483646 + 3) % U32_MOD, ⟨0, ⟨0, 0⟩, ⟨0, 0⟩, ⟨0, 0⟩⟩⟩ :=
  ((os_time_tick_rebase_spec 1000 3 ⟨2147483646, ⟨0, ⟨0, 0⟩, ⟨0, 0⟩, ⟨0, 0⟩⟩⟩
      (by decide) (by decide)).2 (by decide)).2.2.2
